import Mathlib

/-!
Shallow embedding of the `SimpleVectorStore` component of `src/lib/rag.ts`:
an in-memory vector store with cosine-similarity search and whole-snapshot
JSON persistence.  JavaScript numbers are modelled as rationals (with the
Lean convention `x / 0 = 0` standing in for the IEEE `NaN` produced by a
division by zero), the filesystem as an explicit `DiskFile` value, and the
OpenAI embedding provider as an environment of fallible functions.
-/

namespace Rag

/-- Metadata payloads are opaque to the store (`Record<string, any>` in the
source); we model them as string key-value pairs. -/
abbrev Meta := List (String × String)

/-- A stored document, mirroring the `Document` interface of `rag.ts`:
`id`, `text`, `embedding` (a numeric vector, modelled over ℚ) and optional
`metadata`. -/
structure Document where
  id : String
  text : String
  embedding : List ℚ
  metadata : Option Meta
deriving DecidableEq, Repr

/-- State of the persisted file `data/vectorstore.json`: absent, present and
parsing to a document list, or present but unreadable/malformed (read or
`JSON.parse` throws). -/
inductive DiskFile where
  | absent
  | valid (docs : List Document)
  | corrupt
deriving DecidableEq, Repr

/-- The store state together with the filesystem it persists to:
`documents` is the in-memory array `this.documents`, `disk` the persisted
snapshot. -/
structure RagState where
  documents : List Document
  disk : DiskFile
deriving DecidableEq, Repr

/-- Environment of external effects: the embedding provider capabilities
(`embedQuery`, `embedDocuments`), whether a filesystem write succeeds
(`writeOk`), and the id generator (the source uses `Date.now()` plus a random
suffix; we model it as an environment-supplied generator indexed by position
in the batch). -/
structure Env where
  embedQuery : String → Except String (List ℚ)
  embedDocuments : List String → Except String (List (List ℚ))
  writeOk : Bool
  freshId : Nat → String

/-- Model of the platform primitive `Math.sqrt` on rationals: exact on every
rational with a rational square root (all magnitudes arising in this
development are of that form); on other inputs it takes the floor-like value
given by `Nat.sqrt` on numerator and denominator. -/
def ratSqrt (q : ℚ) : ℚ :=
  (Nat.sqrt q.num.toNat : ℚ) / (Nat.sqrt q.den : ℚ)

/-- `cosineSimilarity` of `rag.ts` (lines 23-28): dot product divided by the
product of the Euclidean magnitudes.  The JS `reduce` with initial value 0 is
`foldl`; the index access `vecB[i]` is modelled with default 0 out of range
(JS would yield `undefined`, hence `NaN`; the store keeps dimensions equal).
A zero magnitude makes the division `x / 0`, which is `NaN` in JS and `0`
under the Lean convention; no guard is present in the source. -/
def cosineSimilarity (vecA vecB : List ℚ) : ℚ :=
  let dotProduct := vecA.enum.foldl (fun sum p => sum + p.2 * vecB.getD p.1 0) 0
  let magnitudeA := ratSqrt (vecA.foldl (fun sum a => sum + a * a) 0)
  let magnitudeB := ratSqrt (vecB.foldl (fun sum b => sum + b * b) 0)
  dotProduct / (magnitudeA * magnitudeB)

/-- JavaScript `array.slice(0, k)`: a negative `k` is an end index counted
from the end of the array, clamped at 0. -/
def jsSlice0 (k : Int) (xs : List α) : List α :=
  if k < 0 then xs.take ((xs.length + k).toNat) else xs.take k.toNat

/-- `saveToDisk` (lines 80-91): writes the whole document array as the new
snapshot; any filesystem error is caught and only logged (`console.error`),
so the operation never reports failure and on failure the disk is left
unchanged. -/
def saveToDisk (env : Env) (st : RagState) : RagState :=
  if env.writeOk then { st with disk := DiskFile.valid st.documents } else st

/-- `loadFromDisk` (lines 93-103): if the file exists and parses, replace
`documents` with its contents; if it is absent, or reading/parsing throws,
the error is caught and only logged, leaving `documents` untouched. -/
def loadFromDisk (st : RagState) : RagState :=
  match st.disk with
  | DiskFile.absent => st
  | DiskFile.valid docs => { st with documents := docs }
  | DiskFile.corrupt => st

/-- The `SimpleVectorStore` constructor (lines 17-20): start with an empty
document array, then `loadFromDisk`. -/
def constructStore (disk : DiskFile) : RagState :=
  loadFromDisk { documents := [], disk := disk }

/-- `addDocument` (lines 30-40): embed the text (a provider failure rejects
the promise and is surfaced unchanged, before any mutation), push the new
document, then persist the snapshot.  Result: the operation outcome paired
with the state after the call. -/
def addDocument (env : Env) (st : RagState) (text : String) (metadata : Option Meta) :
    Except String Unit × RagState :=
  match env.embedQuery text with
  | Except.error e => (Except.error e, st)
  | Except.ok embedding =>
    let doc : Document :=
      { id := env.freshId 0, text := text, embedding := embedding, metadata := metadata }
    (Except.ok (), saveToDisk env { st with documents := st.documents ++ [doc] })

/-- `addDocuments` (lines 42-54): embed all texts in one provider call (a
failure is surfaced unchanged, before any mutation), append one document per
text in input order with `metadatas?.[i]` paired positionally (absent when
out of range), then persist once.  No validation of any kind is performed in
the source. -/
def addDocuments (env : Env) (st : RagState) (texts : List String)
    (metadatas : Option (List Meta)) : Except String Unit × RagState :=
  match env.embedDocuments texts with
  | Except.error e => (Except.error e, st)
  | Except.ok embeddings =>
    let newDocs := texts.enum.map (fun p =>
      ({ id := env.freshId p.1, text := p.2, embedding := embeddings.getD p.1 [],
         metadata := metadatas.bind (fun ms => ms[p.1]?) } : Document))
    (Except.ok (), saveToDisk env { st with documents := st.documents ++ newDocs })

/-- `similaritySearch` (lines 56-78): `k` is an optional parameter defaulting
to 4.  An empty store returns `[]` before any provider call; otherwise the
query is embedded (a provider failure is caught and degrades to `[]`), every
document is scored with `cosineSimilarity`, the pairs are sorted by the
comparator `(a, b) => b.similarity - a.similarity` (a stable sort in
descending score order, modelled by `mergeSort`), sliced to `k`, and the
documents extracted.  Result: the state after the call, the returned
documents, and the number of embedding-provider invocations made
(instrumentation for the call-count contract). -/
def similaritySearch (env : Env) (st : RagState) (query : String) (kOpt : Option Int) :
    RagState × List Document × Nat :=
  let k := kOpt.getD 4
  if st.documents.length = 0 then
    (st, [], 0)
  else
    match env.embedQuery query with
    | Except.error _ => (st, [], 1)
    | Except.ok queryEmbedding =>
      let similarities := st.documents.map
        (fun doc => (doc, cosineSimilarity queryEmbedding doc.embedding))
      let ranked := similarities.mergeSort (fun a b => decide (b.2 ≤ a.2))
      (st, (jsSlice0 k ranked).map (fun item => item.1), 1)

/-- `clear` (lines 105-108): empty the in-memory collection and persist the
empty snapshot (persistence failure again only logged). -/
def clear (env : Env) (st : RagState) : RagState :=
  saveToDisk env { st with documents := [] }

/-! Concrete fixtures used by witnesses and counterexamples. -/

/-- A document whose embedding points along the first axis. -/
def docA : Document :=
  { id := "a", text := "alpha", embedding := [1, 0], metadata := none }

/-- A document whose embedding points along the second axis. -/
def docB : Document :=
  { id := "b", text := "beta", embedding := [0, 1], metadata := none }

/-- A document with a zero-magnitude embedding. -/
def docZ : Document :=
  { id := "z", text := "zeta", embedding := [0, 0], metadata := none }

/-- Two documents with identical embeddings, hence identical similarity to
every query: a tie for the stability scenario. -/
def docC : Document :=
  { id := "c", text := "gamma", embedding := [1, 0], metadata := none }

/-- Second of the tied pair. -/
def docD : Document :=
  { id := "d", text := "delta", embedding := [1, 0], metadata := none }

/-- An environment whose provider always succeeds with the vector `[1, 0]`
and whose filesystem writes succeed. -/
def env0 : Env :=
  { embedQuery := fun _ => Except.ok [1, 0],
    embedDocuments := fun ts => Except.ok (ts.map (fun _ => [1, 0])),
    writeOk := true,
    freshId := fun n => toString n }

/-- An environment whose provider always fails. -/
def envFail : Env :=
  { env0 with
    embedQuery := fun _ => Except.error ("quota"),
    embedDocuments := fun _ => Except.error ("quota") }

/-- An environment whose filesystem writes fail. -/
def envNoWrite : Env := { env0 with writeOk := false }

/-- An empty store over an absent persisted file. -/
def stEmpty : RagState := { documents := [], disk := DiskFile.absent }

/-- A store holding `docA` then `docB`. -/
def st2 : RagState := { documents := [docA, docB], disk := DiskFile.absent }

/-- A store holding only the zero-magnitude document. -/
def stZ : RagState := { documents := [docZ], disk := DiskFile.absent }

/-- A store holding the tied pair `docC` then `docD`. -/
def stTie : RagState := { documents := [docC, docD], disk := DiskFile.absent }

/-! Helper lemmas about the ranking comparator and the search pipeline. -/

/-- The sort comparator of `similaritySearch` is transitive. -/
theorem cmp_trans (a b c : Document × ℚ) (h₁ : decide (b.2 ≤ a.2) = true)
    (h₂ : decide (c.2 ≤ b.2) = true) : decide (c.2 ≤ a.2) = true := by
  simp only [decide_eq_true_eq] at h₁ h₂ ⊢
  exact le_trans h₂ h₁

/-- The sort comparator of `similaritySearch` is total. -/
theorem cmp_total (a b : Document × ℚ) :
    (decide (b.2 ≤ a.2) || decide (a.2 ≤ b.2)) = true := by
  simp only [Bool.or_eq_true, decide_eq_true_eq]
  exact le_total b.2 a.2

/-- Unfolding of `similaritySearch` on a non-empty store whose query
embedding succeeds. -/
theorem similaritySearch_ok (env : Env) (st : RagState) (query : String)
    (kOpt : Option Int) (qe : List ℚ) (hne : st.documents ≠ [])
    (hq : env.embedQuery query = Except.ok qe) :
    similaritySearch env st query kOpt =
      (st,
        (jsSlice0 (kOpt.getD 4)
          ((st.documents.map
            (fun doc => (doc, cosineSimilarity qe doc.embedding))).mergeSort
              (fun a b => decide (b.2 ≤ a.2)))).map (fun item => item.1),
        1) := by
  unfold similaritySearch
  simp [hq, List.length_eq_zero, hne]

/-- Persisting never changes the in-memory collection, only the disk. -/
theorem saveToDisk_documents (env : Env) (st : RagState) :
    (saveToDisk env st).documents = st.documents := by
  unfold saveToDisk
  split <;> rfl

/-- Unfolding of `similaritySearch` on an empty store. -/
theorem similaritySearch_nil (env : Env) (st : RagState) (query : String)
    (kOpt : Option Int) (h : st.documents = []) :
    similaritySearch env st query kOpt = (st, [], 0) := by
  unfold similaritySearch
  simp [h]

/-- Unfolding of `similaritySearch` on a non-empty store whose query
embedding fails. -/
theorem similaritySearch_err (env : Env) (st : RagState) (query : String)
    (kOpt : Option Int) (e : String) (hne : st.documents ≠ [])
    (he : env.embedQuery query = Except.error e) :
    similaritySearch env st query kOpt = (st, [], 1) := by
  unfold similaritySearch
  simp [List.length_eq_zero, hne, he]

/-- Concrete evaluation: similarity of the query axis vector with itself. -/
theorem cos_eval_one : cosineSimilarity [1, 0] [1, 0] = 1 := by
  norm_num [cosineSimilarity, ratSqrt, List.enum, List.enumFrom, List.foldl,
    List.getD]

/-- Concrete evaluation: similarity of orthogonal axis vectors. -/
theorem cos_eval_zero : cosineSimilarity [1, 0] [0, 1] = 0 := by
  norm_num [cosineSimilarity, ratSqrt, List.enum, List.enumFrom, List.foldl,
    List.getD]

/-- Concrete evaluation: similarity against the zero vector is computed by
dividing by the zero magnitude (NaN in JavaScript, 0 under the Lean
division convention); no guard excludes it. -/
theorem cos_eval_degenerate : cosineSimilarity [1, 0] [0, 0] = 0 := by
  norm_num [cosineSimilarity, ratSqrt, List.enum, List.enumFrom, List.foldl,
    List.getD]

/-- The scored pairs of the two-document store for query embedding [1, 0]. -/
theorem map_st2 : st2.documents.map
    (fun doc => (doc, cosineSimilarity [1, 0] doc.embedding)) =
    [(docA, 1), (docB, 0)] := by
  simp [st2, docA, docB, cos_eval_one, cos_eval_zero]

/-- The scored pairs of the zero-magnitude store for query embedding
[1, 0]. -/
theorem map_stZ : stZ.documents.map
    (fun doc => (doc, cosineSimilarity [1, 0] doc.embedding)) =
    [(docZ, 0)] := by
  simp [stZ, docZ, cos_eval_degenerate]

/-! Claim theorems. -/

/-- C10: for every store state, query and k, `similaritySearch` leaves the
store's document collection and the persisted snapshot entirely unchanged
(the state component of the result equals the input state), so no
persistence write occurs. -/
theorem similaritySearch_frame (env : Env) (st : RagState) (query : String)
    (kOpt : Option Int) : (similaritySearch env st query kOpt).1 = st := by
  unfold similaritySearch
  dsimp only
  split
  · rfl
  · split <;> rfl

/-- C7: if the store holds zero documents, `similaritySearch` returns an
empty sequence and makes zero embedding-provider calls, for every query and
every k. -/
theorem similaritySearch_empty_store (env : Env) (st : RagState) (query : String)
    (kOpt : Option Int) (h : st.documents = []) :
    similaritySearch env st query kOpt = (st, [], 0) := by
  unfold similaritySearch
  simp [h]

/-- Witness for C7: on the concrete empty store, `similaritySearch` with
query "anything" and k = 3 returns the empty sequence with zero provider
calls. -/
theorem similaritySearch_empty_store_w :
    stEmpty.documents = [] ∧
      similaritySearch env0 stEmpty ("anything") (some 3) = (stEmpty, [], 0) :=
  ⟨rfl, similaritySearch_empty_store env0 stEmpty ("anything") (some 3) rfl⟩

/-- C8: if the embedding-provider call inside `similaritySearch` fails on a
non-empty store, the operation returns an empty sequence rather than
propagating the failure, and the store state is unchanged (one provider call
was made). -/
theorem similaritySearch_provider_error (env : Env) (st : RagState)
    (query : String) (kOpt : Option Int) (e : String)
    (hne : st.documents ≠ []) (he : env.embedQuery query = Except.error e) :
    similaritySearch env st query kOpt = (st, [], 1) := by
  unfold similaritySearch
  simp [List.length_eq_zero, hne, he]

/-- Witness for C8: the failing provider on the two-document store yields the
empty sequence with the state unchanged. -/
theorem similaritySearch_provider_error_w :
    st2.documents ≠ [] ∧ envFail.embedQuery ("q") = Except.error ("quota") ∧
      similaritySearch envFail st2 ("q") (some 4) = (st2, [], 1) :=
  ⟨by decide, rfl,
    similaritySearch_provider_error envFail st2 ("q") (some 4) ("quota")
      (by decide) rfl⟩

/-- C6: if the embedding provider fails during `addDocument` or
`addDocuments`, the error is surfaced to the caller and the resulting state
equals the input state: the in-memory document count and the persisted
snapshot are unchanged (no partial persistence, no document with a missing
vector). -/
theorem add_provider_error_clean (env : Env) (st : RagState) (text : String)
    (metadata : Option Meta) (texts : List String)
    (metadatas : Option (List Meta)) (e e' : String)
    (hq : env.embedQuery text = Except.error e)
    (hd : env.embedDocuments texts = Except.error e') :
    addDocument env st text metadata = (Except.error e, st) ∧
      addDocuments env st texts metadatas = (Except.error e', st) := by
  constructor
  · unfold addDocument
    rw [hq]
  · unfold addDocuments
    rw [hd]

/-- Witness for C6: the failing provider makes `addDocument` and
`addDocuments` fail on the two-document store, leaving it untouched. -/
theorem add_provider_error_clean_w :
    envFail.embedQuery ("t") = Except.error ("quota") ∧
      envFail.embedDocuments ["t"] = Except.error ("quota") ∧
      addDocument envFail st2 ("t") none = (Except.error ("quota"), st2) ∧
      addDocuments envFail st2 ["t"] none = (Except.error ("quota"), st2) := by
  refine ⟨rfl, rfl, ?_, ?_⟩
  · exact (add_provider_error_clean envFail st2 ("t") none ["t"] none
      ("quota") ("quota") rfl rfl).1
  · exact (add_provider_error_clean envFail st2 ("t") none ["t"] none
      ("quota") ("quota") rfl rfl).2

/-- Counterexample for C5: constructing a store over a corrupt persisted
file does not report any fatal condition — it yields an ordinary store with
an empty document collection; and when the snapshot write fails during
`addDocument`, the operation still reports success while the disk is left
unchanged (the failure is never surfaced). -/
theorem persistence_error_surfacing_cex :
    constructStore DiskFile.corrupt =
        { documents := [], disk := DiskFile.corrupt } ∧
      (addDocument envNoWrite st2 ("t") none).1 = Except.ok () ∧
      (addDocument envNoWrite st2 ("t") none).2.disk = st2.disk := by
  refine ⟨rfl, rfl, rfl⟩

/-- C5 as amended: persistence errors are swallowed and only logged, never
surfaced: construction over unreadable or malformed persisted data returns a
normal store with an empty collection, and a failed snapshot write during an
`add*`/`clear` mutation leaves the operation reporting success, with the
in-memory change applied and the disk unchanged. -/
theorem persistence_errors_swallowed (env : Env) (st : RagState)
    (text : String) (metadata : Option Meta) (em : List ℚ)
    (hw : env.writeOk = false) (hq : env.embedQuery text = Except.ok em) :
    (constructStore DiskFile.corrupt).documents = [] ∧
      (addDocument env st text metadata).1 = Except.ok () ∧
      (addDocument env st text metadata).2.disk = st.disk ∧
      (addDocument env st text metadata).2.documents.length =
        st.documents.length + 1 ∧
      clear env st = { st with documents := [] } := by
  refine ⟨rfl, ?_, ?_, ?_, ?_⟩ <;>
    simp [addDocument, clear, saveToDisk, hq, hw]

/-- Witness for C5 (amended): the write-failing environment on the
two-document store. -/
theorem persistence_errors_swallowed_w :
    envNoWrite.writeOk = false ∧
      envNoWrite.embedQuery ("t") = Except.ok [1, 0] ∧
      (addDocument envNoWrite st2 ("t") none).1 = Except.ok () ∧
      (addDocument envNoWrite st2 ("t") none).2.disk = st2.disk ∧
      (addDocument envNoWrite st2 ("t") none).2.documents.length =
        st2.documents.length + 1 ∧
      clear envNoWrite st2 = { st2 with documents := [] } := by
  have h := persistence_errors_swallowed envNoWrite st2 ("t") none [1, 0] rfl rfl
  exact ⟨rfl, rfl, h.2.1, h.2.2.1, h.2.2.2.1, h.2.2.2.2⟩

/-- Counterexample for C2: `addDocuments` with texts `["a", "b"]` and a
single-element metadata list (mismatched lengths) does not fail with any
error — it succeeds, the store grows by two documents whose metadata are
paired positionally (the first carries the single entry, the second is left
without metadata), and a persistence write occurs (the disk changes). -/
theorem addDocuments_no_validation_cex :
    (addDocuments env0 stEmpty ["a", "b"] (some [[("tag", "1")]])).1 =
        Except.ok () ∧
      (addDocuments env0 stEmpty ["a", "b"]
        (some [[("tag", "1")]])).2.documents.length = 2 ∧
      (addDocuments env0 stEmpty ["a", "b"]
        (some [[("tag", "1")]])).2.documents.map (fun d => d.metadata) =
        [some [("tag", "1")], none] ∧
      (addDocuments env0 stEmpty ["a", "b"] (some [[("tag", "1")]])).2.disk ≠
        stEmpty.disk := by
  refine ⟨rfl, rfl, rfl, by decide⟩

/-- C2 as amended: the store performs no input validation at all.  Whenever
the provider succeeds, `addDocuments` succeeds even with a metadata list of
mismatched length, appending one document per text and persisting; the i-th
appended document's metadata is `metadatas?.[i]`, paired positionally, which
leaves every position at or beyond the metadata list's length without
metadata; and `addDocument` accepts empty text. -/
theorem addDocuments_no_validation (env : Env) (st : RagState)
    (texts : List String) (metadatas : Option (List Meta))
    (es : List (List ℚ)) (em : List ℚ)
    (hd : env.embedDocuments texts = Except.ok es)
    (hq : env.embedQuery ("") = Except.ok em) :
    (addDocuments env st texts metadatas).1 = Except.ok () ∧
      (addDocuments env st texts metadatas).2.documents.length =
        st.documents.length + texts.length ∧
      (∀ i, i < texts.length →
        ((addDocuments env st texts
            metadatas).2.documents[st.documents.length + i]?).map
          (fun d => d.metadata) =
          some (metadatas.bind (fun ms => ms[i]?))) ∧
      (∀ ms i, metadatas = some ms → ms.length ≤ i →
        metadatas.bind (fun ms2 => ms2[i]?) = none) ∧
      (addDocument env st ("") none).1 = Except.ok () := by
  refine ⟨?_, ?_, ?_, ?_, ?_⟩
  · unfold addDocuments
    rw [hd]
  · unfold addDocuments
    rw [hd]
    simp [saveToDisk]
    split <;> simp
  · intro i hi
    unfold addDocuments
    rw [hd]
    dsimp only
    rw [saveToDisk_documents]
    rw [List.getElem?_append_right (by omega)]
    rw [Nat.add_sub_cancel_left]
    rw [List.getElem?_map, List.enum, List.getElem?_enumFrom,
      List.getElem?_eq_getElem hi]
    simp
  · intro ms i hms hlen
    rw [hms]
    simp [List.getElem?_eq_none hlen]
  · unfold addDocument
    rw [hq]

/-- Witness for C2 (amended): the always-succeeding environment on the empty
store with the mismatched-lengths scenario input; position 1 is at the
metadata list's length, so the second document is left without metadata. -/
theorem addDocuments_no_validation_w :
    env0.embedDocuments ["a", "b"] = Except.ok [[1, 0], [1, 0]] ∧
      env0.embedQuery ("") = Except.ok [1, 0] ∧
      (1 : Nat) < (["a", "b"] : List String).length ∧
      (addDocuments env0 stEmpty ["a", "b"] (some [[("tag", "1")]])).1 =
        Except.ok () ∧
      (addDocuments env0 stEmpty ["a", "b"]
        (some [[("tag", "1")]])).2.documents.length =
        stEmpty.documents.length + (["a", "b"] : List String).length ∧
      ((addDocuments env0 stEmpty ["a", "b"]
          (some [[("tag", "1")]])).2.documents[stEmpty.documents.length + 1]?).map
        (fun d => d.metadata) =
        some ((some [[("tag", "1")]] : Option (List Meta)).bind
          (fun ms => ms[1]?)) ∧
      (addDocument env0 stEmpty ("") none).1 = Except.ok () := by
  have h := addDocuments_no_validation env0 stEmpty ["a", "b"]
    (some [[("tag", "1")]]) [[1, 0], [1, 0]] [1, 0] rfl rfl
  exact ⟨rfl, rfl, by decide, h.1, h.2.1, h.2.2.1 1 (by decide), h.2.2.2.2⟩

/-- C1: for every store state and query whose embedding succeeds, and every
k ≥ 0, `similaritySearch` returns at most k documents, every returned
document is present in the store, and the returned documents are ordered by
descending cosine similarity between the query embedding and the document
embedding. -/
theorem similaritySearch_topk (env : Env) (st : RagState) (query : String)
    (k : Int) (qe : List ℚ) (hk : 0 ≤ k)
    (hq : env.embedQuery query = Except.ok qe) :
    (similaritySearch env st query (some k)).2.1.length ≤ k.toNat ∧
      (∀ d ∈ (similaritySearch env st query (some k)).2.1,
        d ∈ st.documents) ∧
      (similaritySearch env st query (some k)).2.1.Pairwise
        (fun a b => cosineSimilarity qe b.embedding ≤
          cosineSimilarity qe a.embedding) := by
  by_cases hne : st.documents = []
  · rw [similaritySearch_nil env st query (some k) hne]
    simp
  · rw [similaritySearch_ok env st query (some k) qe hne hq]
    dsimp only [Option.getD]
    have hsl : List.Sublist
        (jsSlice0 k
          ((st.documents.map
            (fun doc => (doc, cosineSimilarity qe doc.embedding))).mergeSort
              (fun a b => decide (b.2 ≤ a.2))))
        ((st.documents.map
          (fun doc => (doc, cosineSimilarity qe doc.embedding))).mergeSort
            (fun a b => decide (b.2 ≤ a.2))) := by
      unfold jsSlice0
      split <;> exact List.take_sublist _ _
    refine ⟨?_, ?_, ?_⟩
    · rw [List.length_map]
      unfold jsSlice0
      rw [if_neg (by omega)]
      rw [List.length_take]
      omega
    · intro d hd
      rcases List.mem_map.mp hd with ⟨p, hp, rfl⟩
      have hpm := List.mem_mergeSort.mp (hsl.subset hp)
      rcases List.mem_map.mp hpm with ⟨doc, hdoc, rfl⟩
      exact hdoc
    · have hsorted := List.sorted_mergeSort cmp_trans cmp_total
        (st.documents.map (fun doc => (doc, cosineSimilarity qe doc.embedding)))
      have h2 := hsorted.sublist hsl
      refine List.pairwise_map.mpr (h2.imp_of_mem ?_)
      intro p q hp hq' hle
      have hps : p.2 = cosineSimilarity qe p.1.embedding := by
        rcases List.mem_map.mp (List.mem_mergeSort.mp (hsl.subset hp)) with
          ⟨doc, hdoc, rfl⟩
        rfl
      have hqs : q.2 = cosineSimilarity qe q.1.embedding := by
        rcases List.mem_map.mp (List.mem_mergeSort.mp (hsl.subset hq')) with
          ⟨doc, hdoc, rfl⟩
        rfl
      have := of_decide_eq_true hle
      rw [hps, hqs] at this
      exact this

/-- Witness for C1: on the two-document store with a query embedding along
the first axis and k = 1, the three conjuncts hold. -/
theorem similaritySearch_topk_w :
    (0 : Int) ≤ 1 ∧ env0.embedQuery ("q") = Except.ok [1, 0] ∧
      ((similaritySearch env0 st2 ("q") (some 1)).2.1.length ≤ (1 : Int).toNat ∧
        (∀ d ∈ (similaritySearch env0 st2 ("q") (some 1)).2.1,
          d ∈ st2.documents) ∧
        (similaritySearch env0 st2 ("q") (some 1)).2.1.Pairwise
          (fun a b => cosineSimilarity [1, 0] b.embedding ≤
            cosineSimilarity [1, 0] a.embedding)) :=
  ⟨by decide, rfl, similaritySearch_topk env0 st2 ("q") 1 [1, 0] (by decide) rfl⟩

/-- C9: whenever two stored documents (one inserted before the other) have
an identical similarity score to the query, and k covers the whole store,
`similaritySearch` returns them in their original insertion order: the
ranking sort is stable with respect to the store's canonical order. -/
theorem similaritySearch_stable_tie (env : Env) (st : RagState)
    (query : String) (k : Int) (qe : List ℚ) (a b : Document)
    (hq : env.embedQuery query = Except.ok qe)
    (hab : List.Sublist [a, b] st.documents)
    (hsim : cosineSimilarity qe a.embedding = cosineSimilarity qe b.embedding)
    (hk : (st.documents.length : Int) ≤ k) :
    List.Sublist [a, b] (similaritySearch env st query (some k)).2.1 := by
  have hablen : 2 ≤ st.documents.length := by
    simpa using hab.length_le
  have hne : st.documents ≠ [] := by
    intro h
    rw [h] at hablen
    simp at hablen
  rw [similaritySearch_ok env st query (some k) qe hne hq]
  dsimp only [Option.getD]
  have hmap := hab.map (fun doc => (doc, cosineSimilarity qe doc.embedding))
  have hstable := List.pair_sublist_mergeSort cmp_trans cmp_total
    (decide_eq_true (le_of_eq hsim.symm)) hmap
  have hlen : ((st.documents.map
      (fun doc => (doc, cosineSimilarity qe doc.embedding))).mergeSort
        (fun p q => decide (q.2 ≤ p.2))).length = st.documents.length := by
    rw [List.length_mergeSort, List.length_map]
  have hslice : jsSlice0 k
      ((st.documents.map
        (fun doc => (doc, cosineSimilarity qe doc.embedding))).mergeSort
          (fun p q => decide (q.2 ≤ p.2))) =
      (st.documents.map
        (fun doc => (doc, cosineSimilarity qe doc.embedding))).mergeSort
          (fun p q => decide (q.2 ≤ p.2)) := by
    unfold jsSlice0
    rw [if_neg (by omega)]
    exact List.take_of_length_le (by omega)
  rw [hslice]
  simpa using hstable.map (fun item => item.1)

/-- Witness for C9: the two tied documents `docC`, `docD` (identical
embeddings, identical score 1 for the query) are returned in insertion
order. -/
theorem similaritySearch_stable_tie_w :
    (env0.embedQuery ("q") = Except.ok [1, 0] ∧
        List.Sublist [docC, docD] stTie.documents ∧
        cosineSimilarity [1, 0] docC.embedding =
          cosineSimilarity [1, 0] docD.embedding ∧
        (stTie.documents.length : Int) ≤ 2) ∧
      List.Sublist [docC, docD] (similaritySearch env0 stTie ("q") (some 2)).2.1 :=
  ⟨⟨rfl, List.Sublist.refl _, by simp [docC, docD], by decide⟩,
    similaritySearch_stable_tie env0 stTie ("q") 2 [1, 0] docC docD rfl
      (List.Sublist.refl _) (by simp [docC, docD]) (by decide)⟩

/-- Counterexample for C3: contrary to the claim that every k ≤ 0 yields an
empty sequence, `similaritySearch` with k = −1 on the two-document store
returns one document (JavaScript `slice(0, -1)` keeps everything but the
last ranked entry). -/
theorem similaritySearch_negative_k_cex :
    (similaritySearch env0 st2 ("q") (some (-1))).2.1 = [docA] := by
  rw [similaritySearch_ok env0 st2 ("q") (some (-1)) [1, 0] (by decide) rfl]
  dsimp only [Option.getD]
  rw [map_st2]
  rw [@List.mergeSort_of_sorted (Document × ℚ)
    (fun a b => decide (b.2 ≤ a.2)) [(docA, 1), (docB, 0)] (by norm_num)]
  norm_num [jsSlice0]

/-- C3 as amended: k defaults to 4 when unspecified, and k = 0 yields an
empty sequence; but a negative k is applied as a JavaScript slice end index
counted from the end of the ranking, so on a non-empty store with a
successful query embedding it yields the highest-ranked
`max(documentCount + k, 0)` documents (all but the last |k|), not an empty
sequence. -/
theorem similaritySearch_k_semantics :
    (∀ (env : Env) (st : RagState) (query : String),
        similaritySearch env st query none =
          similaritySearch env st query (some 4)) ∧
      (∀ (env : Env) (st : RagState) (query : String),
        (similaritySearch env st query (some 0)).2.1 = []) ∧
      (∀ (env : Env) (st : RagState) (query : String) (k : Int) (qe : List ℚ),
        k < 0 → st.documents ≠ [] → env.embedQuery query = Except.ok qe →
        (similaritySearch env st query (some k)).2.1.length =
          ((st.documents.length : Int) + k).toNat) := by
  refine ⟨fun env st query => rfl, ?_, ?_⟩
  · intro env st query
    by_cases hne : st.documents = []
    · rw [similaritySearch_nil env st query (some 0) hne]
    · cases hq : env.embedQuery query with
      | error e => rw [similaritySearch_err env st query (some 0) e hne hq]
      | ok qe =>
        rw [similaritySearch_ok env st query (some 0) qe hne hq]
        dsimp only [Option.getD]
        unfold jsSlice0
        simp
  · intro env st query k qe hneg hne hq
    rw [similaritySearch_ok env st query (some k) qe hne hq]
    dsimp only [Option.getD]
    rw [List.length_map]
    unfold jsSlice0
    rw [if_pos hneg]
    rw [List.length_take, List.length_mergeSort, List.length_map]
    omega

/-- Witness for C3 (amended): the negative-k conjunct applied at k = −1 on
the two-document store: the result has (2 + (−1)) = 1 element. -/
theorem similaritySearch_k_semantics_w :
    ((-1 : Int) < 0 ∧ st2.documents ≠ [] ∧
        env0.embedQuery ("q") = Except.ok [1, 0]) ∧
      (similaritySearch env0 st2 ("q") (some (-1))).2.1.length =
        ((st2.documents.length : Int) + -1).toNat :=
  ⟨⟨by decide, by decide, rfl⟩,
    similaritySearch_k_semantics.2.2 env0 st2 ("q") (-1) [1, 0] (by decide)
      (by decide) rfl⟩

/-- C4 (exhibiting the code bug): the store containing only `docZ`, whose
embedding `[0, 0]` has zero Euclidean magnitude, is not excluded from the
ranking — `similaritySearch` divides by the zero magnitude (NaN in
JavaScript, the convention `x / 0 = 0` here) and returns the degenerate
document, contrary to the specified guard. -/
theorem similaritySearch_zero_magnitude_included :
    docZ.embedding.foldl (fun sum b => sum + b * b) 0 = 0 ∧
      (similaritySearch env0 stZ ("q") (some 4)).2.1 = [docZ] := by
  refine ⟨by norm_num [docZ, List.foldl], ?_⟩
  rw [similaritySearch_ok env0 stZ ("q") (some 4) [1, 0] (by decide) rfl]
  dsimp only [Option.getD]
  rw [map_stZ]
  rw [List.mergeSort_singleton]
  norm_num [jsSlice0]

end Rag
